import Mathlib

/-!
Verification of the simulate namespace factory
(`src/ts/packages/anchor/src/program/namespace/simulate.ts`).

The source file defines `SimulateFactory.build`, which produces, for one IDL
instruction, an async function that builds a transaction, invokes the
provider's simulation capability, classifies failures, and decodes the
returned log lines into events.

Shallow embedding conventions:
- the async function is embedded as a total Lean function returning
  `Except AnchorError SimulateResponse`; a thrown error becomes `.error`;
- collaborators that live outside `src/` (`splitArgsAndCtx` from
  `program/context.ts`, `translateError` from `error.ts`, `EventParser` from
  `program/event.ts`) are modelled from the spec, each marked in its doc
  comment;
- JavaScript truthiness on `idl.events` (an array, possibly `[]`) and on
  `resp.logs` is modelled by `Option`: `undefined` is `none`; an empty array
  is `some []`, which is truthy in JavaScript.
-/

deriving instance DecidableEq for Except

/-- Simulation options inside a `Context`; only `commitment` is read by
`simulate.ts` (`ctx.options?.commitment`). Commitment levels are opaque. -/
structure SimulateOptions where
  commitment : Option Nat
deriving DecidableEq, Repr

/-- `Context` (from `program/context.ts`): the non-argument parameters of a
call. Only the fields read by `simulate.ts` are modelled: `signers` and
`options`. Both may be absent. -/
structure Context where
  signers : Option (List Nat)
  options : Option SimulateOptions
deriving DecidableEq, Repr

/-- The empty default context used when the caller passes no trailing
context object. -/
def Context.empty : Context := { signers := none, options := none }

/-- One element of the caller's argument list: an opaque positional value or
a trailing context object. In TypeScript the list is heterogeneous and the
context is recognized positionally, not by type. -/
inductive Arg where
  | val (v : Nat)
  | ctx (c : Context)
deriving DecidableEq, Repr

/-- A TypeScript value in context position is consumed as a context object;
a non-context value there yields no signers and no options (duck typing). -/
def Arg.asContext : Arg → Context
  | .ctx c => c
  | .val _ => Context.empty

/-- Static description of one IDL instruction; `simulate.ts` and the
argument splitter only use the declared argument count. -/
structure IdlInstruction where
  name : String
  arity : Nat
deriving DecidableEq, Repr

/-- One declared event schema from the IDL (`idl.events` entries). The
decoder model only needs the event's name. -/
structure EventSchema where
  name : String
deriving DecidableEq, Repr

/-- A decoded event record: its name and its decoded payload (the field
mapping is abstracted as the payload string carried by the log line). -/
structure Event where
  name : String
  data : String
deriving DecidableEq, Repr

/-- The raw error produced when the provider's simulation call rejects.
`code` is the extracted numeric program error code, when one is present. -/
structure RawError where
  code : Option Nat
  message : String
deriving DecidableEq, Repr

/-- Classified errors thrown by the simulate function, named after the spec
taxonomy (section 7); each carries the message string from the source (the
source throws plain `Error` objects). `malformedArguments` comes from the
argument splitter collaborator. -/
inductive AnchorError where
  | unsupportedOperation (message : String)
  | programError (code : Nat) (message : String) (cause : RawError)
  | unknownError (cause : RawError)
  | simulationUnavailable (message : String)
  | logsNotFound (message : String)
  | malformedArguments (message : String)
deriving DecidableEq, Repr

/-- The original cause carried by a classified error, when the error wraps
one. Used to state that error translation never swallows the cause. -/
def AnchorError.cause : AnchorError → Option RawError
  | .programError _ _ e => some e
  | .unknownError e => some e
  | _ => none

/-- The provider's raw simulation result (`SuccessfulTxSimulationResponse`):
`logs` is `string[] | undefined`; other fields are not read. -/
structure SimResult where
  logs : Option (List String)
deriving DecidableEq, Repr

/-- A provider: `simulate` is an optional capability
(`provider.simulate === undefined` is a first-class condition). One call is
a function of the transaction, the signers and the commitment, and either
rejects with a `RawError` or resolves, possibly to `undefined` (`none`). -/
structure Provider where
  simulate : Option (List Nat → Option (List Nat) → Option Nat →
      Except RawError (Option SimResult))

/-- The value returned on success: decoded `events` and the `raw` log
lines. -/
structure SimulateResponse where
  events : List Event
  raw : List String
deriving DecidableEq, Repr

/-- Modelled from the spec: `splitArgsAndCtx` (from `program/context.ts`,
not under `src/`). Section 9: treat the last element as `Context` when the
list's length exceeds the declared arity by exactly one, otherwise the
context is an empty default; section 4.1: too few arguments propagate a
`MalformedArguments` error, and more than one extra element is likewise
malformed. -/
def splitArgsAndCtx (ix : IdlInstruction) (args : List Arg) :
    Except AnchorError (List Arg × Context) :=
  if args.length < ix.arity then
    .error (.malformedArguments "provided too few arguments")
  else if args.length = ix.arity then
    .ok (args, Context.empty)
  else if args.length = ix.arity + 1 then
    .ok (args.dropLast, ((args.getLast?).getD (.val 0)).asContext)
  else
    .error (.malformedArguments "provided too many arguments")

/-- Look up a program error code in the IDL error table
(`Map<number, string>` modelled as an association list). -/
def lookupIdlError (t : List (Nat × String)) (c : Nat) : Option String :=
  (t.find? (fun p => p.1 == c)).map Prod.snd

/-- Modelled from the spec: `translateError` (from `error.ts`, not under
`src/`). Section 4.2 step 5 / section 6: translate the raw error through the
IDL error-code table; a matching code yields a `ProgramError` carrying the
table's message, otherwise the error passes through as an `UnknownError`;
the original cause is preserved in both cases. -/
def translateError (err : RawError) (idlErrors : List (Nat × String)) :
    AnchorError :=
  match err.code with
  | some c =>
    match lookupIdlError idlErrors c with
    | some msg => .programError c msg err
    | none => .unknownError err
  | none => .unknownError err

/-- Modelled from the spec: the per-line emission marker of the event parser
(`program/event.ts`, not under `src/`). Glossary: a program-specific log
line marker signaling that an encoded event payload follows. -/
def emissionMarker (programId : String) : String :=
  "Program " ++ programId ++ " event: "

/-- Strip a leading marker (first argument) from a line (second argument),
character by character; `none` when the line does not start with the
marker. -/
def dropMarker : List Char → List Char → Option (List Char)
  | [], rest => some rest
  | _ :: _, [] => none
  | m :: ms, c :: cs => if c = m then dropMarker ms cs else none

/-- Split a payload at its first colon into name and data; `none` when no
colon occurs. -/
def breakColon : List Char → Option (List Char × List Char)
  | [] => none
  | c :: cs =>
    if c = ':' then some ([], cs)
    else (breakColon cs).map (fun p => (c :: p.1, p.2))

/-- Modelled from the spec: recognize a log line as an emission of this
program and extract its payload; lines without the marker are not
emissions. -/
def recognizeEmission (programId : String) (line : String) : Option String :=
  (dropMarker (emissionMarker programId).data line.data).map String.mk

/-- Modelled from the spec: decode one extracted payload against the
declared event schemas (the coder's role); a payload of shape `name:data`
whose name matches a declared schema decodes to that event, anything else
fails to decode. -/
def decodePayload (schemas : List EventSchema) (payload : String) :
    Option Event :=
  match breakColon payload.data with
  | some (n, d) =>
    if schemas.any (fun s => s.name.data = n) then
      some { name := String.mk n, data := String.mk d }
    else none
  | none => none

/-- Modelled from the spec: the full per-line decoding step of the event
parser: marker recognition followed by payload decoding; failure of either
stage makes the line a non-event. -/
def decodeLine (programId : String) (schemas : List EventSchema)
    (line : String) : Option Event :=
  (recognizeEmission programId line).bind (decodePayload schemas)

/-- Modelled from the spec: `EventParser.parseLogs` (from
`program/event.ts`, not under `src/`). Section 4.3: scan the log lines in
order; unrecognized or undecodable lines are skipped, never erroring; output
order matches the order emissions appear in the logs. -/
def parseLogs (programId : String) (schemas : List EventSchema)
    (logs : List String) : List Event :=
  logs.filterMap (decodeLine programId schemas)

/-- The simulate function produced by `SimulateFactory.build`, embedded from
the source. Parameters mirror the source's: the IDL instruction, the
transaction builder `txFn`, the IDL error table, the provider, the program
id, and the IDL's declared events (`idl.events`, `none` when the field is
absent); the coder is realized by the spec-modelled `decodePayload`. The
body follows the source line by line: build the transaction, split the
arguments, require the simulation capability, invoke it, translate a
rejection, reject an absent result, reject absent logs, and otherwise decode
events exactly when `idl.events` is truthy. -/
def SimulateFactory.build (idlIx : IdlInstruction) (txFn : List Arg → List Nat)
    (idlErrors : List (Nat × String)) (provider : Provider)
    (programId : String) (idlEvents : Option (List EventSchema))
    (args : List Arg) : Except AnchorError SimulateResponse :=
  let tx := txFn args
  match splitArgsAndCtx idlIx args with
  | .error e => .error e
  | .ok (_, ctx) =>
    match provider.simulate with
    | none =>
      .error (.unsupportedOperation
        "This function requires Provider.simulate to be implemented.")
    | some sim =>
      match sim tx ctx.signers (ctx.options.bind SimulateOptions.commitment) with
      | .error err => .error (translateError err idlErrors)
      | .ok none => .error (.simulationUnavailable "Unable to simulate transaction")
      | .ok (some resp) =>
        match resp.logs with
        | none => .error (.logsNotFound "Simulated logs not found")
        | some logs =>
          match idlEvents with
          | some schemas =>
            .ok { events := parseLogs programId schemas logs, raw := logs }
          | none => .ok { events := [], raw := logs }

/-- Observable side effects of one invocation: how many times the provider's
simulation capability was called, and whether an event parser was
constructed and run over the logs. -/
structure SimulateTrace where
  networkCalls : Nat
  parserInvoked : Bool
deriving DecidableEq, Repr

/-- `SimulateFactory.build` instrumented with a `SimulateTrace`: identical
control flow, additionally recording the number of provider calls and
whether the event parser ran (the `if (idl.events)` branch of the
source). -/
def SimulateFactory.buildTraced (idlIx : IdlInstruction)
    (txFn : List Arg → List Nat) (idlErrors : List (Nat × String))
    (provider : Provider) (programId : String)
    (idlEvents : Option (List EventSchema)) (args : List Arg) :
    Except AnchorError SimulateResponse × SimulateTrace :=
  let tx := txFn args
  match splitArgsAndCtx idlIx args with
  | .error e => (.error e, ⟨0, false⟩)
  | .ok (_, ctx) =>
    match provider.simulate with
    | none =>
      (.error (.unsupportedOperation
        "This function requires Provider.simulate to be implemented."),
       ⟨0, false⟩)
    | some sim =>
      match sim tx ctx.signers (ctx.options.bind SimulateOptions.commitment) with
      | .error err => (.error (translateError err idlErrors), ⟨1, false⟩)
      | .ok none =>
        (.error (.simulationUnavailable "Unable to simulate transaction"), ⟨1, false⟩)
      | .ok (some resp) =>
        match resp.logs with
        | none => (.error (.logsNotFound "Simulated logs not found"), ⟨1, false⟩)
        | some logs =>
          match idlEvents with
          | some schemas =>
            (.ok { events := parseLogs programId schemas logs, raw := logs },
             ⟨1, true⟩)
          | none => (.ok { events := [], raw := logs }, ⟨1, false⟩)

/-- Whether the IDL declares zero events: either the `events` field is
absent or it is an empty list. -/
def declaresNoEvents : Option (List EventSchema) → Bool
  | none => true
  | some es => es.isEmpty

/-- The traced build is the untraced build plus a trace: the first component
always agrees with `SimulateFactory.build`. -/
theorem buildTraced_fst (idlIx : IdlInstruction) (txFn : List Arg → List Nat)
    (idlErrors : List (Nat × String)) (provider : Provider)
    (programId : String) (idlEvents : Option (List EventSchema))
    (args : List Arg) :
    (SimulateFactory.buildTraced idlIx txFn idlErrors provider programId
        idlEvents args).1 =
      SimulateFactory.build idlIx txFn idlErrors provider programId
        idlEvents args := by
  unfold SimulateFactory.buildTraced SimulateFactory.build
  rcases splitArgsAndCtx idlIx args with e | ⟨rest, ctx⟩ <;> simp
  rcases provider.simulate with _ | sim <;> simp
  rcases sim (txFn args) ctx.signers (ctx.options.bind SimulateOptions.commitment)
    with err | _ | resp <;> simp
  rcases resp.logs with _ | logs <;> simp
  rcases idlEvents with _ | schemas <;> simp

/-! Shared concrete fixtures used by witnesses and counterexamples. -/

def ixFix : IdlInstruction := { name := "increment", arity := 0 }

def txFnFix : List Arg → List Nat := fun _ => [0]

/-- A provider whose simulation capability exists and returns the given
outcome for every request. -/
def providerOf (o : Except RawError (Option SimResult)) : Provider :=
  { simulate := some fun _ _ _ => o }

/-- A provider that does not expose a simulation capability. -/
def providerMissing : Provider := { simulate := none }

def pidFix : String := "P1"

def schemaTransfer : EventSchema := { name := "Transfer" }

def schemaBurn : EventSchema := { name := "Burn" }

def lineTransfer : String := "Program P1 event: Transfer:9"

def lineBurn : String := "Program P1 event: Burn:4"

/-! Shared helper lemmas characterizing one run of the simulate function. -/

/-- With no declared schemas, no payload decodes. -/
theorem decodePayload_nil_schemas (payload : String) :
    decodePayload [] payload = none := by
  unfold decodePayload
  rcases breakColon payload.data with _ | ⟨n, d⟩ <;> simp

/-- With no declared schemas, no line decodes to an event. -/
theorem decodeLine_nil_schemas (programId : String) (line : String) :
    decodeLine programId [] line = none := by
  unfold decodeLine
  rcases recognizeEmission programId line with _ | payload
  · rfl
  · simp [decodePayload_nil_schemas]

/-- With no declared schemas, the parser decodes no events from any logs. -/
theorem parseLogs_nil_schemas (programId : String) (logs : List String) :
    parseLogs programId [] logs = [] := by
  unfold parseLogs
  rw [List.filterMap_eq_nil_iff]
  intro line _
  exact decodeLine_nil_schemas programId line

/-- Successful-run characterization: when splitting succeeds, the provider
has the capability, and it resolves to a result carrying logs, the build
returns those logs raw together with the decoded events (decoded exactly
when `idl.events` is truthy). -/
theorem build_ok_of (idlIx : IdlInstruction) (txFn : List Arg → List Nat)
    (idlErrors : List (Nat × String)) (provider : Provider)
    (programId : String) (idlEvents : Option (List EventSchema))
    (args rest : List Arg) (ctx : Context)
    (sim : List Nat → Option (List Nat) → Option Nat →
      Except RawError (Option SimResult))
    (logs : List String)
    (hsplit : splitArgsAndCtx idlIx args = .ok (rest, ctx))
    (hsim : provider.simulate = some sim)
    (hresp : sim (txFn args) ctx.signers
        (ctx.options.bind SimulateOptions.commitment) =
      .ok (some { logs := some logs })) :
    SimulateFactory.build idlIx txFn idlErrors provider programId idlEvents
        args =
      .ok { events := match idlEvents with
              | some schemas => parseLogs programId schemas logs
              | none => [],
            raw := logs } := by
  simp only [SimulateFactory.build, hsplit, hsim, hresp]
  rcases idlEvents with _ | schemas <;> rfl

/-- Rejected-run characterization: a provider rejection is translated
through the IDL error table. -/
theorem build_error_of (idlIx : IdlInstruction) (txFn : List Arg → List Nat)
    (idlErrors : List (Nat × String)) (provider : Provider)
    (programId : String) (idlEvents : Option (List EventSchema))
    (args rest : List Arg) (ctx : Context)
    (sim : List Nat → Option (List Nat) → Option Nat →
      Except RawError (Option SimResult))
    (err : RawError)
    (hsplit : splitArgsAndCtx idlIx args = .ok (rest, ctx))
    (hsim : provider.simulate = some sim)
    (hresp : sim (txFn args) ctx.signers
        (ctx.options.bind SimulateOptions.commitment) = .error err) :
    SimulateFactory.build idlIx txFn idlErrors provider programId idlEvents
        args =
      .error (translateError err idlErrors) := by
  simp only [SimulateFactory.build, hsplit, hsim, hresp]

/-- Absent-result characterization: a resolved but absent result fails with
the simulation-unavailable error. -/
theorem build_unavailable_of (idlIx : IdlInstruction)
    (txFn : List Arg → List Nat) (idlErrors : List (Nat × String))
    (provider : Provider) (programId : String)
    (idlEvents : Option (List EventSchema)) (args rest : List Arg)
    (ctx : Context)
    (sim : List Nat → Option (List Nat) → Option Nat →
      Except RawError (Option SimResult))
    (hsplit : splitArgsAndCtx idlIx args = .ok (rest, ctx))
    (hsim : provider.simulate = some sim)
    (hresp : sim (txFn args) ctx.signers
        (ctx.options.bind SimulateOptions.commitment) = .ok none) :
    SimulateFactory.build idlIx txFn idlErrors provider programId idlEvents
        args =
      .error (.simulationUnavailable "Unable to simulate transaction") := by
  simp only [SimulateFactory.build, hsplit, hsim, hresp]

/-- Absent-logs characterization: a result without a log sequence fails with
the logs-not-found error. -/
theorem build_noLogs_of (idlIx : IdlInstruction)
    (txFn : List Arg → List Nat) (idlErrors : List (Nat × String))
    (provider : Provider) (programId : String)
    (idlEvents : Option (List EventSchema)) (args rest : List Arg)
    (ctx : Context)
    (sim : List Nat → Option (List Nat) → Option Nat →
      Except RawError (Option SimResult))
    (hsplit : splitArgsAndCtx idlIx args = .ok (rest, ctx))
    (hsim : provider.simulate = some sim)
    (hresp : sim (txFn args) ctx.signers
        (ctx.options.bind SimulateOptions.commitment) =
      .ok (some { logs := none })) :
    SimulateFactory.build idlIx txFn idlErrors provider programId idlEvents
        args =
      .error (.logsNotFound "Simulated logs not found") := by
  simp only [SimulateFactory.build, hsplit, hsim, hresp]

/-- Specialization of the successful-run characterization to a truthy
`idl.events`: events are decoded by the parser. -/
theorem build_ok_someEvents (idlIx : IdlInstruction)
    (txFn : List Arg → List Nat) (idlErrors : List (Nat × String))
    (provider : Provider) (programId : String)
    (schemas : List EventSchema) (args rest : List Arg) (ctx : Context)
    (sim : List Nat → Option (List Nat) → Option Nat →
      Except RawError (Option SimResult))
    (logs : List String)
    (hsplit : splitArgsAndCtx idlIx args = .ok (rest, ctx))
    (hsim : provider.simulate = some sim)
    (hresp : sim (txFn args) ctx.signers
        (ctx.options.bind SimulateOptions.commitment) =
      .ok (some { logs := some logs })) :
    SimulateFactory.build idlIx txFn idlErrors provider programId
        (some schemas) args =
      .ok { events := parseLogs programId schemas logs, raw := logs } := by
  simp only [SimulateFactory.build, hsplit, hsim, hresp]

/-- Whenever the build succeeds and the IDL declares zero events (absent
field or empty list), the decoded events are empty. -/
theorem build_events_empty_of_declaresNoEvents (idlIx : IdlInstruction)
    (txFn : List Arg → List Nat) (idlErrors : List (Nat × String))
    (provider : Provider) (programId : String)
    (idlEvents : Option (List EventSchema)) (args : List Arg)
    (r : SimulateResponse)
    (hne : declaresNoEvents idlEvents = true)
    (hok : SimulateFactory.build idlIx txFn idlErrors provider programId
        idlEvents args = .ok r) :
    r.events = [] := by
  simp only [SimulateFactory.build] at hok
  repeat' split at hok
  any_goals cases hok
  all_goals simp only [declaresNoEvents, List.isEmpty_iff] at hne
  · subst hne
    exact parseLogs_nil_schemas _ _
  · rfl

/-- When `idl.events` is absent, no event parser is constructed or run on
any code path. -/
theorem buildTraced_parser_off_of_none (idlIx : IdlInstruction)
    (txFn : List Arg → List Nat) (idlErrors : List (Nat × String))
    (provider : Provider) (programId : String) (args : List Arg) :
    (SimulateFactory.buildTraced idlIx txFn idlErrors provider programId
        none args).2.parserInvoked = false := by
  simp only [SimulateFactory.buildTraced]
  repeat' split
  all_goals rfl

/-- C1 (amended): for every successful invocation, if the method's IDL
declares no events, the returned `events` sequence is empty regardless of
log content. (The only-if direction of the original claim fails: `events`
can be empty even when events are declared, see the counterexample.) -/
theorem c1_events_empty_of_no_declared_events (idlIx : IdlInstruction)
    (txFn : List Arg → List Nat) (idlErrors : List (Nat × String))
    (provider : Provider) (programId : String)
    (idlEvents : Option (List EventSchema)) (args : List Arg)
    (r : SimulateResponse)
    (hne : declaresNoEvents idlEvents = true)
    (hok : SimulateFactory.build idlIx txFn idlErrors provider programId
        idlEvents args = .ok r) :
    r.events = [] :=
  build_events_empty_of_declaresNoEvents idlIx txFn idlErrors provider
    programId idlEvents args r hne hok

/-- C1 witness: a concrete successful run with no declared events has empty
`events`. -/
theorem c1_witness : (SimulateResponse.mk [] ["noise"]).events = [] :=
  c1_events_empty_of_no_declared_events ixFix txFnFix []
    (providerOf (.ok (some { logs := some ["noise"] }))) pidFix none []
    (SimulateResponse.mk [] ["noise"]) rfl rfl

/-- C1 counterexample: with one declared event (`Transfer`) and a log
containing no emission, the invocation succeeds with empty `events`, so
"`events` is empty if and only if the IDL declares no events" fails: here
`events` is empty while the IDL declares an event. -/
theorem c1_counterexample :
    SimulateFactory.build ixFix txFnFix []
        (providerOf (.ok (some { logs := some ["noise"] }))) pidFix
        (some [schemaTransfer]) [] =
      .ok { events := [], raw := ["noise"] } ∧
    declaresNoEvents (some [schemaTransfer]) = false ∧
    ¬ (([] : List Event) = [] ↔ declaresNoEvents (some [schemaTransfer]) = true) := by
  refine ⟨rfl, rfl, ?_⟩
  decide

/-- C2 (amended): for every method whose IDL declares zero events, every
successful invocation returns an empty `events` sequence regardless of log
content; and when the `events` field is absent from the IDL, no parser is
invoked. (The original claim's "no parser is invoked" fails when the IDL
carries an empty `events` list, which is truthy: see the counterexample.) -/
theorem c2_zero_events_empty_and_parser_off (idlIx : IdlInstruction)
    (txFn : List Arg → List Nat) (idlErrors : List (Nat × String))
    (provider : Provider) (programId : String)
    (idlEvents : Option (List EventSchema)) (args : List Arg)
    (hne : declaresNoEvents idlEvents = true) :
    (∀ r, (SimulateFactory.buildTraced idlIx txFn idlErrors provider
        programId idlEvents args).1 = .ok r → r.events = []) ∧
    (idlEvents = none →
      (SimulateFactory.buildTraced idlIx txFn idlErrors provider programId
          idlEvents args).2.parserInvoked = false) := by
  constructor
  · intro r hok
    rw [buildTraced_fst] at hok
    exact build_events_empty_of_declaresNoEvents idlIx txFn idlErrors
      provider programId idlEvents args r hne hok
  · intro h
    subst h
    exact buildTraced_parser_off_of_none idlIx txFn idlErrors provider
      programId args

/-- C2 witness: concrete instantiation with an absent `events` field; the
run succeeds with empty events and the parser off. -/
theorem c2_witness :
    (∀ r, (SimulateFactory.buildTraced ixFix txFnFix []
        (providerOf (.ok (some { logs := some [lineTransfer] }))) pidFix
        none []).1 = .ok r → r.events = []) ∧
    ((none : Option (List EventSchema)) = none →
      (SimulateFactory.buildTraced ixFix txFnFix []
          (providerOf (.ok (some { logs := some [lineTransfer] }))) pidFix
          none []).2.parserInvoked = false) :=
  c2_zero_events_empty_and_parser_off ixFix txFnFix []
    (providerOf (.ok (some { logs := some [lineTransfer] }))) pidFix none []
    rfl

/-- C2 counterexample: an IDL whose `events` field is present but empty
declares zero events, yet the parser is invoked over the logs (the source
guard `if (idl.events)` treats the empty array as truthy), refuting "the log
lines are not inspected by the event decoder (no parser is invoked)". -/
theorem c2_counterexample :
    declaresNoEvents (some ([] : List EventSchema)) = true ∧
    (SimulateFactory.buildTraced ixFix txFnFix []
        (providerOf (.ok (some { logs := some [lineTransfer] }))) pidFix
        (some []) []).2.parserInvoked = true :=
  ⟨rfl, rfl⟩

/-- C3: for every invocation where the provider's simulation resolves to a
result carrying a log sequence, the `raw` field of the returned response
equals exactly that log sequence, in the same order, unmodified. -/
theorem c3_raw_equals_provider_logs (idlIx : IdlInstruction)
    (txFn : List Arg → List Nat) (idlErrors : List (Nat × String))
    (provider : Provider) (programId : String)
    (idlEvents : Option (List EventSchema)) (args rest : List Arg)
    (ctx : Context)
    (sim : List Nat → Option (List Nat) → Option Nat →
      Except RawError (Option SimResult))
    (logs : List String) (r : SimulateResponse)
    (hsplit : splitArgsAndCtx idlIx args = .ok (rest, ctx))
    (hsim : provider.simulate = some sim)
    (hresp : sim (txFn args) ctx.signers
        (ctx.options.bind SimulateOptions.commitment) =
      .ok (some { logs := some logs }))
    (hok : SimulateFactory.build idlIx txFn idlErrors provider programId
        idlEvents args = .ok r) :
    r.raw = logs := by
  rw [build_ok_of idlIx txFn idlErrors provider programId idlEvents args
    rest ctx sim logs hsplit hsim hresp] at hok
  cases hok
  rfl

/-- C3 witness: a concrete run returns exactly the provider's log lines as
`raw`. -/
theorem c3_witness :
    (SimulateResponse.mk [] ["alpha", "beta"]).raw = ["alpha", "beta"] :=
  c3_raw_equals_provider_logs ixFix txFnFix []
    (providerOf (.ok (some { logs := some ["alpha", "beta"] }))) pidFix none
    [] [] Context.empty (fun _ _ _ => .ok (some { logs := some ["alpha", "beta"] }))
    ["alpha", "beta"] (SimulateResponse.mk [] ["alpha", "beta"])
    rfl rfl rfl rfl

/-- Decoding distributes over the log segments: three recognized emissions
with arbitrary segments between them decode to the three events in emission
order, with the segments' decodings interleaved in place. -/
theorem parseLogs_three_emissions (programId : String)
    (schemas : List EventSchema) (a b c d : List String)
    (x1 x2 x3 : String) (e1 e2 e3 : Event)
    (h1 : decodeLine programId schemas x1 = some e1)
    (h2 : decodeLine programId schemas x2 = some e2)
    (h3 : decodeLine programId schemas x3 = some e3) :
    parseLogs programId schemas (a ++ x1 :: (b ++ x2 :: (c ++ x3 :: d))) =
      parseLogs programId schemas a ++
        e1 :: (parseLogs programId schemas b ++
          e2 :: (parseLogs programId schemas c ++
            e3 :: parseLogs programId schemas d)) := by
  simp [parseLogs, List.filterMap_append, List.filterMap_cons, h1, h2, h3]

/-- C4: when the logs contain recognized emissions decoding to E1, then E2,
then E3 in that order, the successful invocation's `events` lists E1 before
E2 before E3, in the order the emissions appear in the logs. -/
theorem c4_event_order_preserved (idlIx : IdlInstruction)
    (txFn : List Arg → List Nat) (idlErrors : List (Nat × String))
    (provider : Provider) (programId : String) (schemas : List EventSchema)
    (args rest : List Arg) (ctx : Context)
    (sim : List Nat → Option (List Nat) → Option Nat →
      Except RawError (Option SimResult))
    (a b c d : List String) (x1 x2 x3 : String) (e1 e2 e3 : Event)
    (hsplit : splitArgsAndCtx idlIx args = .ok (rest, ctx))
    (hsim : provider.simulate = some sim)
    (hresp : sim (txFn args) ctx.signers
        (ctx.options.bind SimulateOptions.commitment) =
      .ok (some { logs := some (a ++ x1 :: (b ++ x2 :: (c ++ x3 :: d))) }))
    (h1 : decodeLine programId schemas x1 = some e1)
    (h2 : decodeLine programId schemas x2 = some e2)
    (h3 : decodeLine programId schemas x3 = some e3) :
    SimulateFactory.build idlIx txFn idlErrors provider programId
        (some schemas) args =
      .ok { events := parseLogs programId schemas a ++
              e1 :: (parseLogs programId schemas b ++
                e2 :: (parseLogs programId schemas c ++
                  e3 :: parseLogs programId schemas d)),
            raw := a ++ x1 :: (b ++ x2 :: (c ++ x3 :: d)) } := by
  rw [build_ok_someEvents idlIx txFn idlErrors provider programId schemas
    args rest ctx sim _ hsplit hsim hresp]
  rw [parseLogs_three_emissions programId schemas a b c d x1 x2 x3 e1 e2 e3
    h1 h2 h3]

/-- A third emission line used by the order witness. -/
def lineTransfer7 : String := "Program P1 event: Transfer:7"

/-- The log sequence of the order witness: three emissions with noise lines
between them, written in segment form. -/
def logsOrder : List String :=
  ["n0"] ++ lineTransfer :: (["n1"] ++ lineBurn :: ([] ++ lineTransfer7 :: ["n2"]))

def eventT9 : Event := { name := "Transfer", data := "9" }

def eventB4 : Event := { name := "Burn", data := "4" }

def eventT7 : Event := { name := "Transfer", data := "7" }

def schemasTB : List EventSchema := [schemaTransfer, schemaBurn]

/-- C4 witness: three concrete emissions with noise between them decode in
emission order. -/
theorem c4_witness :
    SimulateFactory.build ixFix txFnFix []
        (providerOf (.ok (some { logs := some logsOrder }))) pidFix
        (some schemasTB) [] =
      .ok { events := parseLogs pidFix schemasTB ["n0"] ++
              eventT9 :: (parseLogs pidFix schemasTB ["n1"] ++
                eventB4 :: (parseLogs pidFix schemasTB [] ++
                  eventT7 :: parseLogs pidFix schemasTB ["n2"])),
            raw := logsOrder } :=
  c4_event_order_preserved ixFix txFnFix []
    (providerOf (.ok (some { logs := some logsOrder }))) pidFix schemasTB
    [] [] Context.empty (fun _ _ _ => .ok (some { logs := some logsOrder }))
    ["n0"] ["n1"] [] ["n2"] lineTransfer lineBurn lineTransfer7
    eventT9 eventB4 eventT7 rfl rfl rfl rfl rfl rfl

/-- C9: a single unparseable line between two valid emission lines is simply
absent from `events`: the invocation still succeeds and both valid events
are decoded, in order. -/
theorem c9_malformed_line_skipped (idlIx : IdlInstruction)
    (txFn : List Arg → List Nat) (idlErrors : List (Nat × String))
    (provider : Provider) (programId : String) (schemas : List EventSchema)
    (args rest : List Arg) (ctx : Context)
    (sim : List Nat → Option (List Nat) → Option Nat →
      Except RawError (Option SimResult))
    (v1 bad v2 : String) (e1 e2 : Event)
    (hsplit : splitArgsAndCtx idlIx args = .ok (rest, ctx))
    (hsim : provider.simulate = some sim)
    (hresp : sim (txFn args) ctx.signers
        (ctx.options.bind SimulateOptions.commitment) =
      .ok (some { logs := some [v1, bad, v2] }))
    (h1 : decodeLine programId schemas v1 = some e1)
    (hbad : decodeLine programId schemas bad = none)
    (h2 : decodeLine programId schemas v2 = some e2) :
    SimulateFactory.build idlIx txFn idlErrors provider programId
        (some schemas) args =
      .ok { events := [e1, e2], raw := [v1, bad, v2] } := by
  rw [build_ok_someEvents idlIx txFn idlErrors provider programId schemas
    args rest ctx sim _ hsplit hsim hresp]
  simp [parseLogs, List.filterMap_cons, h1, hbad, h2]

/-- The log sequence of the malformed-line witness. -/
def logsMalformed : List String := [lineTransfer, "garbage", lineBurn]

/-- C9 witness: a concrete garbage line between two valid emissions yields
exactly the two decoded events. -/
theorem c9_witness :
    SimulateFactory.build ixFix txFnFix []
        (providerOf (.ok (some { logs := some logsMalformed }))) pidFix
        (some schemasTB) [] =
      .ok { events := [eventT9, eventB4], raw := logsMalformed } :=
  c9_malformed_line_skipped ixFix txFnFix []
    (providerOf (.ok (some { logs := some logsMalformed }))) pidFix
    schemasTB [] [] Context.empty
    (fun _ _ _ => .ok (some { logs := some logsMalformed }))
    lineTransfer "garbage" lineBurn eventT9 eventB4
    rfl rfl rfl rfl rfl rfl

/-- C5: against a provider without the simulation capability, a well-formed
invocation fails with the unsupported-operation error and the trace records
zero network calls (the provider is never invoked). -/
theorem c5_unsupported_no_network (idlIx : IdlInstruction)
    (txFn : List Arg → List Nat) (idlErrors : List (Nat × String))
    (provider : Provider) (programId : String)
    (idlEvents : Option (List EventSchema)) (args rest : List Arg)
    (ctx : Context)
    (hsplit : splitArgsAndCtx idlIx args = .ok (rest, ctx))
    (hns : provider.simulate = none) :
    SimulateFactory.buildTraced idlIx txFn idlErrors provider programId
        idlEvents args =
      (.error (.unsupportedOperation
          "This function requires Provider.simulate to be implemented."),
       { networkCalls := 0, parserInvoked := false }) := by
  simp only [SimulateFactory.buildTraced, hsplit, hns]

/-- C5 witness: a concrete capability-less provider fails immediately with
zero network calls. -/
theorem c5_witness :
    SimulateFactory.buildTraced ixFix txFnFix [] providerMissing pidFix
        none [] =
      (.error (.unsupportedOperation
          "This function requires Provider.simulate to be implemented."),
       { networkCalls := 0, parserInvoked := false }) :=
  c5_unsupported_no_network ixFix txFnFix [] providerMissing pidFix none []
    [] Context.empty rfl rfl

/-- Translation never swallows the original cause: the classified error
always carries the raw error. -/
theorem translateError_cause (err : RawError) (t : List (Nat × String)) :
    (translateError err t).cause = some err := by
  unfold translateError
  split
  · split
    · rfl
    · rfl
  · rfl

/-- C6: a provider rejection is translated through the IDL error table: the
call fails with the translation; the translation preserves the original
cause; a matching code yields a program error whose message is the table's
entry for that code; a non-matching or absent code passes the cause through
as an unknown error. -/
theorem c6_error_translated (idlIx : IdlInstruction)
    (txFn : List Arg → List Nat) (idlErrors : List (Nat × String))
    (provider : Provider) (programId : String)
    (idlEvents : Option (List EventSchema)) (args rest : List Arg)
    (ctx : Context)
    (sim : List Nat → Option (List Nat) → Option Nat →
      Except RawError (Option SimResult))
    (err : RawError)
    (hsplit : splitArgsAndCtx idlIx args = .ok (rest, ctx))
    (hsim : provider.simulate = some sim)
    (hresp : sim (txFn args) ctx.signers
        (ctx.options.bind SimulateOptions.commitment) = .error err) :
    SimulateFactory.build idlIx txFn idlErrors provider programId idlEvents
        args =
      .error (translateError err idlErrors) ∧
    (translateError err idlErrors).cause = some err ∧
    (∀ c msg, err.code = some c → lookupIdlError idlErrors c = some msg →
      translateError err idlErrors = .programError c msg err) ∧
    (∀ c, err.code = some c → lookupIdlError idlErrors c = none →
      translateError err idlErrors = .unknownError err) ∧
    (err.code = none → translateError err idlErrors = .unknownError err) := by
  refine ⟨build_error_of idlIx txFn idlErrors provider programId idlEvents
    args rest ctx sim err hsplit hsim hresp,
    translateError_cause err idlErrors, ?_, ?_, ?_⟩
  · intro c msg hc hl
    simp [translateError, hc, hl]
  · intro c hc hl
    simp [translateError, hc, hl]
  · intro hc
    simp [translateError, hc]

/-- The raw rejection used by the translation witness: it carries the
declared program error code 6000. -/
def err6000 : RawError := { code := some 6000, message := "custom program error: 0x1770" }

/-- C6 witness: a concrete rejection with code 6000 against a table mapping
6000 to its message fails as a program error with that exact message and the
original cause attached. -/
theorem c6_witness :
    SimulateFactory.build ixFix txFnFix [(6000, "InsufficientFunds")]
        (providerOf (.error err6000)) pidFix none [] =
      .error (.programError 6000 "InsufficientFunds" err6000) :=
  (c6_error_translated ixFix txFnFix [(6000, "InsufficientFunds")]
    (providerOf (.error err6000)) pidFix none [] [] Context.empty
    (fun _ _ _ => .error err6000) err6000 rfl rfl rfl).1

/-- C7 (amended): a provider call that resolves without a result fails with
the simulation-unavailable error carrying the message
"Unable to simulate transaction" (capitalized as in the source, not
"unable to simulate transaction" as the claim quotes it). -/
theorem c7_simulation_unavailable (idlIx : IdlInstruction)
    (txFn : List Arg → List Nat) (idlErrors : List (Nat × String))
    (provider : Provider) (programId : String)
    (idlEvents : Option (List EventSchema)) (args rest : List Arg)
    (ctx : Context)
    (sim : List Nat → Option (List Nat) → Option Nat →
      Except RawError (Option SimResult))
    (hsplit : splitArgsAndCtx idlIx args = .ok (rest, ctx))
    (hsim : provider.simulate = some sim)
    (hresp : sim (txFn args) ctx.signers
        (ctx.options.bind SimulateOptions.commitment) = .ok none) :
    SimulateFactory.build idlIx txFn idlErrors provider programId idlEvents
        args =
      .error (.simulationUnavailable "Unable to simulate transaction") :=
  build_unavailable_of idlIx txFn idlErrors provider programId idlEvents
    args rest ctx sim hsplit hsim hresp

/-- C7 witness: a concrete provider resolving to no result fails with the
capitalized message. -/
theorem c7_witness :
    SimulateFactory.build ixFix txFnFix [] (providerOf (.ok none)) pidFix
        none [] =
      .error (.simulationUnavailable "Unable to simulate transaction") :=
  c7_simulation_unavailable ixFix txFnFix [] (providerOf (.ok none)) pidFix
    none [] [] Context.empty (fun _ _ _ => .ok none) rfl rfl rfl

/-- C7 counterexample: at this input the error message is
"Unable to simulate transaction", not "unable to simulate transaction" as
the claim states, so the claimed message is wrong (capitalization). -/
theorem c7_counterexample :
    SimulateFactory.build ixFix txFnFix [] (providerOf (.ok none)) pidFix
        none [] =
      .error (.simulationUnavailable "Unable to simulate transaction") ∧
    SimulateFactory.build ixFix txFnFix [] (providerOf (.ok none)) pidFix
        none [] ≠
      .error (.simulationUnavailable "unable to simulate transaction") := by
  exact ⟨rfl, by decide⟩

/-- C8 (amended): a provider result present but lacking a log sequence
fails with the logs-not-found error carrying the message
"Simulated logs not found" (capitalized as in the source, not
"simulated logs not found" as the claim quotes it); in particular no
success is returned. -/
theorem c8_logs_not_found (idlIx : IdlInstruction)
    (txFn : List Arg → List Nat) (idlErrors : List (Nat × String))
    (provider : Provider) (programId : String)
    (idlEvents : Option (List EventSchema)) (args rest : List Arg)
    (ctx : Context)
    (sim : List Nat → Option (List Nat) → Option Nat →
      Except RawError (Option SimResult))
    (hsplit : splitArgsAndCtx idlIx args = .ok (rest, ctx))
    (hsim : provider.simulate = some sim)
    (hresp : sim (txFn args) ctx.signers
        (ctx.options.bind SimulateOptions.commitment) =
      .ok (some { logs := none })) :
    SimulateFactory.build idlIx txFn idlErrors provider programId idlEvents
        args =
      .error (.logsNotFound "Simulated logs not found") ∧
    ∀ r, SimulateFactory.build idlIx txFn idlErrors provider programId
        idlEvents args ≠ .ok r := by
  have h := build_noLogs_of idlIx txFn idlErrors provider programId
    idlEvents args rest ctx sim hsplit hsim hresp
  refine ⟨h, fun r hok => ?_⟩
  rw [h] at hok
  cases hok

/-- C8 witness: a concrete result object without logs fails with the
capitalized logs-not-found message and never succeeds. -/
theorem c8_witness :
    SimulateFactory.build ixFix txFnFix []
        (providerOf (.ok (some { logs := none }))) pidFix none [] =
      .error (.logsNotFound "Simulated logs not found") ∧
    ∀ r, SimulateFactory.build ixFix txFnFix []
        (providerOf (.ok (some { logs := none }))) pidFix none [] ≠ .ok r :=
  c8_logs_not_found ixFix txFnFix [] (providerOf (.ok (some { logs := none })))
    pidFix none [] [] Context.empty
    (fun _ _ _ => .ok (some { logs := none })) rfl rfl rfl

/-- C8 counterexample: at this input the error message is
"Simulated logs not found", not "simulated logs not found" as the claim
quotes it (capitalization). -/
theorem c8_counterexample :
    SimulateFactory.build ixFix txFnFix []
        (providerOf (.ok (some { logs := none }))) pidFix none [] =
      .error (.logsNotFound "Simulated logs not found") ∧
    SimulateFactory.build ixFix txFnFix []
        (providerOf (.ok (some { logs := none }))) pidFix none [] ≠
      .error (.logsNotFound "simulated logs not found") := by
  exact ⟨rfl, by decide⟩

/-- C10: a provider result whose log sequence is present but empty succeeds
with empty `raw` and empty `events` — the missing-logs check distinguishes
an absent log field from an empty log sequence. -/
theorem c10_empty_logs_success (idlIx : IdlInstruction)
    (txFn : List Arg → List Nat) (idlErrors : List (Nat × String))
    (provider : Provider) (programId : String)
    (idlEvents : Option (List EventSchema)) (args rest : List Arg)
    (ctx : Context)
    (sim : List Nat → Option (List Nat) → Option Nat →
      Except RawError (Option SimResult))
    (hsplit : splitArgsAndCtx idlIx args = .ok (rest, ctx))
    (hsim : provider.simulate = some sim)
    (hresp : sim (txFn args) ctx.signers
        (ctx.options.bind SimulateOptions.commitment) =
      .ok (some { logs := some [] })) :
    SimulateFactory.build idlIx txFn idlErrors provider programId idlEvents
        args =
      .ok { events := [], raw := [] } := by
  rw [build_ok_of idlIx txFn idlErrors provider programId idlEvents args
    rest ctx sim [] hsplit hsim hresp]
  rcases idlEvents with _ | schemas <;> rfl

/-- C10 witness: a concrete empty log sequence succeeds (even with declared
events) instead of raising logs-not-found. -/
theorem c10_witness :
    SimulateFactory.build ixFix txFnFix []
        (providerOf (.ok (some { logs := some [] }))) pidFix
        (some [schemaTransfer]) [] =
      .ok { events := [], raw := [] } :=
  c10_empty_logs_success ixFix txFnFix []
    (providerOf (.ok (some { logs := some [] }))) pidFix
    (some [schemaTransfer]) [] [] Context.empty
    (fun _ _ _ => .ok (some { logs := some [] })) rfl rfl rfl
